import Mathlib

/-
Shallow embedding of the nds-extract cartridge-image decoder (src/nds.rs).

The Rust program decodes an NDS ROM image: a fixed-layout header (deku
field-by-field little-endian reads), an icon/banner record located by the
header, a 4bpp packed tile bitmap reconstruction into a 32x32 RGBA raster,
and an animated-icon sequence interpreter.

Modelling conventions:
- bytes and machine integers are Nat; u8 values read from the buffer are
  taken mod 256 when assembled into little-endian integers;
- deku decoding (NDSHeader::from_bytes, NDSIcon::from_bytes) is embedded as
  a cursor-threaded reader over a List Nat; a read past the end of the
  buffer produces the typed error ReadError.unexpectedEndOfData, matching
  deku returning DekuError::Incomplete;
- functions doing file output (dump_elf, dump_icon) are embedded up to the
  data they compute; the actual PNG/GIF/ELF serialisation performed by the
  image/object crates is outside the decoder and is not modelled;
- the pixel-sink callback of dump_icon_frame is embedded as the ordered
  list of blit calls (x, y, rgba) the Rust code makes;
- slice::split_at in dump_icon panics when the split index exceeds the
  buffer length; the panic is modelled as an explicit IconDumpResult.panic
  outcome;
- the f64 expression ((c as f64) / 31. * 255.).round() in conv is embedded
  as the exact rational rounding (c * 255 * 2 + 31) / 62, which agrees with
  the f64 computation on every 5-bit input 0..=31 (the two are never closer
  than 1/31 to a rounding boundary except at the exact integers 0 and 255).
-/

/-- Error produced by a buffer read that would run past the end of the
input, recording the cursor offset and the requested length. -/
inductive ReadError where
  | unexpectedEndOfData (offset requested : Nat)
deriving DecidableEq

/-- Result of a decode step: either an error, or a value together with the
new cursor position. -/
abbrev DResult (α : Type) := Except ReadError (α × Nat)

/-- Read n bytes at cursor pos; fails when the read would exceed the
buffer, without touching memory past the end. -/
def readBytes (buf : List Nat) (pos n : Nat) : DResult (List Nat) :=
  if pos + n ≤ buf.length then .ok ((buf.drop pos).take n, pos + n)
  else .error (.unexpectedEndOfData pos n)

/-- Sequencing of decode steps, threading the cursor. -/
def bindD {α β : Type} (x : DResult α) (f : α → Nat → DResult β) : DResult β :=
  match x with
  | .error e => .error e
  | .ok (a, p) => f a p

/-- Little-endian integer assembled from a byte list (first byte is least
significant); each entry is reduced mod 256, as bytes are u8. -/
def leNum : List Nat → Nat
  | [] => 0
  | b :: rest => b % 256 + 256 * leNum rest

/-- Pair up consecutive bytes into little-endian 16-bit values. -/
def toU16s : List Nat → List Nat
  | b0 :: b1 :: rest => (b0 % 256 + 256 * (b1 % 256)) :: toU16s rest
  | _ => []

def readU8 (buf : List Nat) (pos : Nat) : DResult Nat :=
  bindD (readBytes buf pos 1) fun bs p => .ok (leNum bs, p)

def readU16 (buf : List Nat) (pos : Nat) : DResult Nat :=
  bindD (readBytes buf pos 2) fun bs p => .ok (leNum bs, p)

def readU32 (buf : List Nat) (pos : Nat) : DResult Nat :=
  bindD (readBytes buf pos 4) fun bs p => .ok (leNum bs, p)

def readU64 (buf : List Nat) (pos : Nat) : DResult Nat :=
  bindD (readBytes buf pos 8) fun bs p => .ok (leNum bs, p)

/-- Read n little-endian u16 values (2*n bytes). -/
def readU16s (buf : List Nat) (pos n : Nat) : DResult (List Nat) :=
  bindD (readBytes buf pos (2 * n)) fun bs p => .ok (toU16s bs, p)

/-- Fixed-capacity zero-padded byte string (struct BoundedString). -/
structure BoundedString where
  data : List Nat
deriving DecidableEq

/-- Fixed-capacity zero-padded UTF-16 string: 128 sixteen-bit units
(struct BoundedUTF16String). -/
structure BoundedUTF16String where
  data : List Nat
deriving DecidableEq

/-- The fixed-size cartridge header (struct NDSHeader), fields in the
declaration order of the deku derive. -/
structure NDSHeader where
  title : BoundedString
  gamecode : BoundedString
  makercode : Nat
  unitcode : Nat
  encryption_seed : Nat
  device_capacity : Nat
  reserved_1 : List Nat
  gamerevision : Nat
  romversion : Nat
  autostart : Nat
  arm9_offset : Nat
  arm9_entry : Nat
  arm9_load : Nat
  arm9_size : Nat
  arm7_offset : Nat
  arm7_entry : Nat
  arm7_load : Nat
  arm7_size : Nat
  fnt_offset : Nat
  fnt_size : Nat
  fat_offset : Nat
  fat_size : Nat
  arm9_overlay_offset : Nat
  arm9_overlay_size : Nat
  arm7_overlay_offset : Nat
  arm7_overlay_length : Nat
  _1 : Nat
  _2 : Nat
  icon_banner_offset : Nat
  secure_area_crc : Nat
  secure_tfr_timeout : Nat
  arm9_autoload : Nat
  arm7_autoload : Nat
  secure_disable : Nat
  ntr_region_size : Nat
  header_size : Nat
  reserved_2 : List Nat
  logo : List Nat
  logo_crc : Nat
  header_crc : Nat
  debugger_reserved : List Nat
deriving DecidableEq

/-- One 512-byte animation bitmap frame (struct DSIIconFrame). -/
structure DSIIconFrame where
  data : List Nat
deriving DecidableEq

/-- A 16-entry palette of 16-bit colors (struct NDSIconPalette). -/
structure NDSIconPalette where
  colors : List Nat
deriving DecidableEq

/-- The extended DSi animated-icon block (struct DSIIcon): 8 bitmap frames,
8 palettes, 64-entry sequence table. -/
structure DSIIcon where
  frames : List DSIIconFrame
  frame_palettes : List NDSIconPalette
  sequence : List Nat
deriving DecidableEq

/-- The icon/banner record (struct NDSIcon); dsi_icon is present only when
the deku cond version >= 259 holds at decode time. -/
structure NDSIcon where
  version : Nat
  crc_1 : Nat
  crc_2 : Nat
  crc_3 : Nat
  crc_4 : Nat
  reserved : List Nat
  bitmap : List Nat
  palette : NDSIconPalette
  title_jp : BoundedUTF16String
  title_en : BoundedUTF16String
  title_fr : BoundedUTF16String
  title_de : BoundedUTF16String
  title_it : BoundedUTF16String
  title_es : BoundedUTF16String
  title_zh : BoundedUTF16String
  title_kr : BoundedUTF16String
  zerofilled : List Nat
  dsi_icon : Option DSIIcon
deriving DecidableEq

/-- Decode of NDSHeader::from_bytes: the deku derive reads each declared
field in order, little-endian, advancing a cursor from offset 0. Fixed
widths: 12 title, 4 gamecode, u16, 3 bytes, 7 reserved, u16, 2 bytes,
sixteen u32 descriptors and locators, u32 icon_banner_offset, two u16 CRC
fields, two u32 autoload fields, u64, two u32, 56 + 156 reserved/logo
bytes, two u16 CRCs, 32 debugger bytes; total 384 bytes. -/
def decodeNDSHeader (buf : List Nat) : DResult NDSHeader :=
  bindD (readBytes buf 0 12) fun title p =>
  bindD (readBytes buf p 4) fun gamecode p =>
  bindD (readU16 buf p) fun makercode p =>
  bindD (readU8 buf p) fun unitcode p =>
  bindD (readU8 buf p) fun encryption_seed p =>
  bindD (readU8 buf p) fun device_capacity p =>
  bindD (readBytes buf p 7) fun reserved_1 p =>
  bindD (readU16 buf p) fun gamerevision p =>
  bindD (readU8 buf p) fun romversion p =>
  bindD (readU8 buf p) fun autostart p =>
  bindD (readU32 buf p) fun arm9_offset p =>
  bindD (readU32 buf p) fun arm9_entry p =>
  bindD (readU32 buf p) fun arm9_load p =>
  bindD (readU32 buf p) fun arm9_size p =>
  bindD (readU32 buf p) fun arm7_offset p =>
  bindD (readU32 buf p) fun arm7_entry p =>
  bindD (readU32 buf p) fun arm7_load p =>
  bindD (readU32 buf p) fun arm7_size p =>
  bindD (readU32 buf p) fun fnt_offset p =>
  bindD (readU32 buf p) fun fnt_size p =>
  bindD (readU32 buf p) fun fat_offset p =>
  bindD (readU32 buf p) fun fat_size p =>
  bindD (readU32 buf p) fun arm9_overlay_offset p =>
  bindD (readU32 buf p) fun arm9_overlay_size p =>
  bindD (readU32 buf p) fun arm7_overlay_offset p =>
  bindD (readU32 buf p) fun arm7_overlay_length p =>
  bindD (readU32 buf p) fun v1 p =>
  bindD (readU32 buf p) fun v2 p =>
  bindD (readU32 buf p) fun icon_banner_offset p =>
  bindD (readU16 buf p) fun secure_area_crc p =>
  bindD (readU16 buf p) fun secure_tfr_timeout p =>
  bindD (readU32 buf p) fun arm9_autoload p =>
  bindD (readU32 buf p) fun arm7_autoload p =>
  bindD (readU64 buf p) fun secure_disable p =>
  bindD (readU32 buf p) fun ntr_region_size p =>
  bindD (readU32 buf p) fun header_size p =>
  bindD (readBytes buf p 56) fun reserved_2 p =>
  bindD (readBytes buf p 156) fun logo p =>
  bindD (readU16 buf p) fun logo_crc p =>
  bindD (readU16 buf p) fun header_crc p =>
  bindD (readBytes buf p 32) fun debugger_reserved p =>
  .ok ({ title := ⟨title⟩, gamecode := ⟨gamecode⟩, makercode := makercode,
         unitcode := unitcode, encryption_seed := encryption_seed,
         device_capacity := device_capacity, reserved_1 := reserved_1,
         gamerevision := gamerevision, romversion := romversion, autostart := autostart,
         arm9_offset := arm9_offset, arm9_entry := arm9_entry, arm9_load := arm9_load,
         arm9_size := arm9_size, arm7_offset := arm7_offset, arm7_entry := arm7_entry,
         arm7_load := arm7_load, arm7_size := arm7_size, fnt_offset := fnt_offset,
         fnt_size := fnt_size, fat_offset := fat_offset, fat_size := fat_size,
         arm9_overlay_offset := arm9_overlay_offset, arm9_overlay_size := arm9_overlay_size,
         arm7_overlay_offset := arm7_overlay_offset, arm7_overlay_length := arm7_overlay_length,
         _1 := v1, _2 := v2, icon_banner_offset := icon_banner_offset,
         secure_area_crc := secure_area_crc, secure_tfr_timeout := secure_tfr_timeout,
         arm9_autoload := arm9_autoload, arm7_autoload := arm7_autoload,
         secure_disable := secure_disable, ntr_region_size := ntr_region_size,
         header_size := header_size, reserved_2 := reserved_2, logo := logo,
         logo_crc := logo_crc, header_crc := header_crc,
         debugger_reserved := debugger_reserved }, p)

/-- Decode of the DSIIcon block: 8 frames of 512 bytes, 8 palettes of 16
u16 colors, then the 64-entry u16 sequence table. -/
def decodeDSIIcon (buf : List Nat) (pos : Nat) : DResult DSIIcon :=
  bindD (readBytes buf pos 512) fun f0 p =>
  bindD (readBytes buf p 512) fun f1 p =>
  bindD (readBytes buf p 512) fun f2 p =>
  bindD (readBytes buf p 512) fun f3 p =>
  bindD (readBytes buf p 512) fun f4 p =>
  bindD (readBytes buf p 512) fun f5 p =>
  bindD (readBytes buf p 512) fun f6 p =>
  bindD (readBytes buf p 512) fun f7 p =>
  bindD (readU16s buf p 16) fun pal0 p =>
  bindD (readU16s buf p 16) fun pal1 p =>
  bindD (readU16s buf p 16) fun pal2 p =>
  bindD (readU16s buf p 16) fun pal3 p =>
  bindD (readU16s buf p 16) fun pal4 p =>
  bindD (readU16s buf p 16) fun pal5 p =>
  bindD (readU16s buf p 16) fun pal6 p =>
  bindD (readU16s buf p 16) fun pal7 p =>
  bindD (readU16s buf p 64) fun sequence p =>
  .ok ({ frames := [⟨f0⟩, ⟨f1⟩, ⟨f2⟩, ⟨f3⟩, ⟨f4⟩, ⟨f5⟩, ⟨f6⟩, ⟨f7⟩],
         frame_palettes := [⟨pal0⟩, ⟨pal1⟩, ⟨pal2⟩, ⟨pal3⟩, ⟨pal4⟩, ⟨pal5⟩, ⟨pal6⟩, ⟨pal7⟩],
         sequence := sequence }, p)

/-- Decode of NDSIcon::from_bytes: version, four CRCs, 22 reserved bytes,
the 512-byte bitmap, a 16-color palette, eight 128-unit UTF-16 titles,
2048 zero-filled bytes, then the DSIIcon block only under the deku cond
version >= 259; otherwise dsi_icon is the explicit absence none. -/
def decodeNDSIcon (buf : List Nat) : DResult NDSIcon :=
  bindD (readU16 buf 0) fun version p =>
  bindD (readU16 buf p) fun crc_1 p =>
  bindD (readU16 buf p) fun crc_2 p =>
  bindD (readU16 buf p) fun crc_3 p =>
  bindD (readU16 buf p) fun crc_4 p =>
  bindD (readBytes buf p 22) fun reserved p =>
  bindD (readBytes buf p 512) fun bitmap p =>
  bindD (readU16s buf p 16) fun palette p =>
  bindD (readU16s buf p 128) fun title_jp p =>
  bindD (readU16s buf p 128) fun title_en p =>
  bindD (readU16s buf p 128) fun title_fr p =>
  bindD (readU16s buf p 128) fun title_de p =>
  bindD (readU16s buf p 128) fun title_it p =>
  bindD (readU16s buf p 128) fun title_es p =>
  bindD (readU16s buf p 128) fun title_zh p =>
  bindD (readU16s buf p 128) fun title_kr p =>
  bindD (readBytes buf p 2048) fun zerofilled p =>
  if 259 ≤ version then
    bindD (decodeDSIIcon buf p) fun dsi p =>
    .ok ({ version := version, crc_1 := crc_1, crc_2 := crc_2, crc_3 := crc_3,
           crc_4 := crc_4, reserved := reserved, bitmap := bitmap, palette := ⟨palette⟩,
           title_jp := ⟨title_jp⟩, title_en := ⟨title_en⟩, title_fr := ⟨title_fr⟩,
           title_de := ⟨title_de⟩, title_it := ⟨title_it⟩, title_es := ⟨title_es⟩,
           title_zh := ⟨title_zh⟩, title_kr := ⟨title_kr⟩, zerofilled := zerofilled,
           dsi_icon := some dsi }, p)
  else
    .ok ({ version := version, crc_1 := crc_1, crc_2 := crc_2, crc_3 := crc_3,
           crc_4 := crc_4, reserved := reserved, bitmap := bitmap, palette := ⟨palette⟩,
           title_jp := ⟨title_jp⟩, title_en := ⟨title_en⟩, title_fr := ⟨title_fr⟩,
           title_de := ⟨title_de⟩, title_it := ⟨title_it⟩, title_es := ⟨title_es⟩,
           title_zh := ⟨title_zh⟩, title_kr := ⟨title_kr⟩, zerofilled := zerofilled,
           dsi_icon := none }, p)

/-- The two executable payloads computed by dump_elf: for each region,
content.iter().skip(offset).take(size).collect(), i.e. drop then take.
The Rust iterator pipeline cannot fail: out-of-range offsets or sizes
silently clamp to the available bytes. The ELF packaging and file output
that follow in dump_elf are outside the decoder and not modelled. -/
def dump_elf (header : NDSHeader) (content : List Nat) : List Nat × List Nat :=
  ((content.drop header.arm9_offset).take header.arm9_size,
   (content.drop header.arm7_offset).take header.arm7_size)

/-- Embedding of fn conv: 5-bit channel to 8-bit channel,
((c as f64) / 31. * 255.).round() as u8. On the 5-bit domain the f64
computation equals exact rational rounding, here floor((2*c*255 + 31)/62). -/
def conv (single_channel : Nat) : Nat :=
  (single_channel * 255 * 2 + 31) / 62

/-- Decoded animation-sequence entry fields (struct IconAnimation). -/
structure IconAnimation where
  flip_vert : Bool
  flip_horiz : Bool
  palette : Nat
  bitmap : Nat
  duration : Nat
deriving DecidableEq

/-- IconAnimation::default(): all flags clear, all fields zero. -/
def IconAnimation.default : IconAnimation :=
  { flip_vert := false, flip_horiz := false, palette := 0, bitmap := 0, duration := 0 }

/-- A color as written to the RGBA pixel buffer: (red, green, blue, alpha). -/
abbrev RGBA := Nat × Nat × Nat × Nat

/-- The nibble stream of dump_icon_frame: each bitmap byte is split into
its low nibble (x & 0b1111) and then its high nibble (x >> 4). -/
def nibbles (bitmap : List Nat) : List Nat :=
  bitmap.flatMap fun x => [x &&& 15, x >>> 4]

/-- The RGBA value dump_icon_frame passes to the blit callback for one
decoded 4-bit index: index 0 is the transparent [0,0,0,0]; otherwise the
palette entry is looked up and unpacked as red = bits 0-4, green = bits
5-9, blue = bits 10-14, each widened by conv, with alpha 255. -/
def pixelColor (me : Nat) (palette : NDSIconPalette) : RGBA :=
  if me = 0 then (0, 0, 0, 0)
  else
    let color := palette.colors.getD me 0
    (conv (color &&& 31), conv ((color >>> 5) &&& 31), conv ((color >>> 10) &&& 31), 255)

/-- Embedding of fn dump_icon_frame as the ordered list of blit calls it
makes. The Rust code walks tiles with ty outer and tx inner over the 4x4
grid, collects 64 nibbles per tile (advance_by(64) never fails for a
512-byte bitmap, whose nibble stream has exactly 1024 entries), and inside
a tile loops x outer, y inner, blitting nibble tile[y*8+x] at destination
(x + tx*8, y + ty*8), mirrored per axis when a flip flag is set. -/
def dump_icon_frame (bitmap : List Nat) (palette : NDSIconPalette)
    (anim : IconAnimation) : List (Nat × Nat × RGBA) :=
  (List.range 4).flatMap fun ty =>
  (List.range 4).flatMap fun tx =>
  (List.range 8).flatMap fun x =>
  (List.range 8).map fun y =>
    let tile := ((nibbles bitmap).drop (64 * (ty * 4 + tx))).take 64
    let me := tile.getD (y * 8 + x) 0
    let px := x + tx * 8
    let py := y + ty * 8
    (if anim.flip_horiz then 31 - px else px,
     if anim.flip_vert then 31 - py else py,
     pixelColor me palette)

/-- Closed form of the k-th blit call of dump_icon_frame, used to reason
about the stream by index: k / 64 is the tile (row-major), (k % 64) / 8
the inner x, k % 8 the inner y. -/
def frameEntry (bitmap : List Nat) (palette : NDSIconPalette) (anim : IconAnimation)
    (k : Nat) : Nat × Nat × RGBA :=
  let t := k / 64
  let x := k % 64 / 8
  let y := k % 8
  let tile := ((nibbles bitmap).drop (64 * (t / 4 * 4 + t % 4))).take 64
  let me := tile.getD (y * 8 + x) 0
  let px := x + t % 4 * 8
  let py := y + t / 4 * 8
  (if anim.flip_horiz then 31 - px else px,
   if anim.flip_vert then 31 - py else py,
   pixelColor me palette)

/-- The raster produced by replaying a blit-call list into a 32x32 RGBA
image that starts all zero (RgbaImage::new), each call overwriting its
destination pixel. -/
def applyWrites (writes : List (Nat × Nat × RGBA)) (x y : Nat) : RGBA :=
  writes.foldl (fun acc e => if e.1 = x ∧ e.2.1 = y then e.2.2 else acc) (0, 0, 0, 0)

/-- Decoding of one 16-bit sequence entry into an IconAnimation, exactly
the bit fields used in dump_icon: bit 15 vertical flip, bit 14 horizontal
flip, bits 13-11 palette index, bits 10-8 bitmap index, bits 7-0 duration. -/
def decodeAnim (seq : Nat) : IconAnimation :=
  { flip_vert := decide (0 < (seq >>> 15) &&& 1),
    flip_horiz := decide (0 < (seq >>> 14) &&& 1),
    palette := (seq >>> 11) &&& 7,
    bitmap := (seq >>> 8) &&& 7,
    duration := seq &&& 0xff }

/-- One rendered animation frame: the blit stream of the selected bitmap
and palette under the decoded flips, paired with the raw duration in
1/60-second ticks (the Delay conversion to milliseconds done when pushing
the GIF frame is presentation, not decoding). -/
def frameOf (dsi : DSIIcon) (seq : Nat) : List (Nat × Nat × RGBA) × Nat :=
  let anim := decodeAnim seq
  (dump_icon_frame (dsi.frames.getD anim.bitmap ⟨[]⟩).data
     (dsi.frame_palettes.getD anim.palette ⟨[]⟩) anim,
   anim.duration)

/-- The frame loop of dump_icon over the sequence table: iterate entries
in order, break immediately on a raw value of 0, otherwise emit the frame
and continue. -/
def animFramesLoop (dsi : DSIIcon) : List Nat → List (List (Nat × Nat × RGBA) × Nat)
  | [] => []
  | seq :: rest => if seq = 0 then [] else frameOf dsi seq :: animFramesLoop dsi rest

/-- The frames dump_icon renders for an extended icon block. -/
def animFrames (dsi : DSIIcon) : List (List (Nat × Nat × RGBA) × Nat) :=
  animFramesLoop dsi dsi.sequence

/-- slice::split_at(mid), which panics (None here) when mid exceeds the
slice length; at mid = length it returns the empty second half. -/
def splitAtChecked (l : List Nat) (mid : Nat) : Option (List Nat × List Nat) :=
  if mid ≤ l.length then some (l.take mid, l.drop mid) else none

/-- Outcome of dump_icon up to the data it computes: a panic (from
split_at with an out-of-range index), a propagated decode error from
NDSIcon::from_bytes, or the static icon blit stream together with the
animation frames (empty when no DSi block is present). -/
inductive IconDumpResult where
  | panic
  | decodeError (e : ReadError)
  | ok (staticFrame : List (Nat × Nat × RGBA)) (anim : List (List (Nat × Nat × RGBA) × Nat))

/-- Embedding of fn dump_icon: split the content at icon_banner_offset
(panics when the offset exceeds the buffer), decode the NDSIcon from the
second half (the error propagates), then render the static icon with
IconAnimation::default and, when the DSi block is present, the animation
frames. PNG/GIF encoding is outside the decoder and not modelled. -/
def dump_icon (header : NDSHeader) (content : List Nat) : IconDumpResult :=
  match splitAtChecked content header.icon_banner_offset with
  | none => .panic
  | some (_, rest) =>
    match decodeNDSIcon rest with
    | .error e => .decodeError e
    | .ok (icon, _) =>
      .ok (dump_icon_frame icon.bitmap icon.palette IconAnimation.default)
        (match icon.dsi_icon with
         | none => []
         | some dsi => animFrames dsi)

/-- Modelled from the spec (testable properties): the decode failed with
the typed UnexpectedEndOfData error. -/
def failsEndOfData {α : Type} (r : DResult α) : Prop :=
  match r with
  | .error (.unexpectedEndOfData _ _) => True
  | _ => False

/-- Modelled from the spec (section 3, Color): the rescale
round(channel / 31 * 255) stated by the spec, as exact rational rounding. -/
def specConv (c : Nat) : ℤ :=
  round ((c : ℚ) / 31 * 255)

/-- Modelled from the spec (section 3, Color): the claimed RGBA expansion
with blue taken from bits 0-4, green from bits 5-9 and red from bits
10-14 of the palette entry, each channel rescaled as in conv. -/
def specClaimRGBA (c : Nat) : RGBA :=
  (conv (c / 1024 % 32), conv (c / 32 % 32), conv (c % 32), 255)

/-- Modelled from the spec (section 4.5): the reference pixel-write
stream, with nibbles consumed in raster order inside each 8x8 tile (y
outer, x inner) and tiles consumed in row-major order over the 4x4 grid. -/
def specReferenceStream (bitmap : List Nat) (palette : NDSIconPalette) :
    List (Nat × Nat × RGBA) :=
  (List.range 4).flatMap fun ty =>
  (List.range 4).flatMap fun tx =>
  (List.range 8).flatMap fun y =>
  (List.range 8).map fun x =>
    let me := (nibbles bitmap).getD (64 * (ty * 4 + tx) + (y * 8 + x)) 0
    (x + tx * 8, y + ty * 8, pixelColor me palette)

/-- A header record with every field zero, the base for test fixtures. -/
def zeroHeader : NDSHeader :=
  { title := ⟨[]⟩, gamecode := ⟨[]⟩, makercode := 0, unitcode := 0,
    encryption_seed := 0, device_capacity := 0, reserved_1 := [],
    gamerevision := 0, romversion := 0, autostart := 0,
    arm9_offset := 0, arm9_entry := 0, arm9_load := 0, arm9_size := 0,
    arm7_offset := 0, arm7_entry := 0, arm7_load := 0, arm7_size := 0,
    fnt_offset := 0, fnt_size := 0, fat_offset := 0, fat_size := 0,
    arm9_overlay_offset := 0, arm9_overlay_size := 0,
    arm7_overlay_offset := 0, arm7_overlay_length := 0,
    _1 := 0, _2 := 0, icon_banner_offset := 0,
    secure_area_crc := 0, secure_tfr_timeout := 0,
    arm9_autoload := 0, arm7_autoload := 0, secure_disable := 0,
    ntr_region_size := 0, header_size := 0, reserved_2 := [], logo := [],
    logo_crc := 0, header_crc := 0, debugger_reserved := [] }

/-- Fixture: header whose icon_banner_offset (1) exceeds an empty buffer. -/
def hdrC1 : NDSHeader := { zeroHeader with icon_banner_offset := 1 }

/-- Fixture: header whose arm9 descriptor (offset 2, size 10) overruns a
4-byte buffer, and whose arm7 descriptor starts past the end (offset 9). -/
def hdrC2 : NDSHeader :=
  { zeroHeader with arm9_offset := 2, arm9_size := 10, arm7_offset := 9, arm7_size := 0 }

/-- Fixture: header with in-range arm9 descriptor (offset 1, size 2) and
an arm7 offset (9) at or past the end of a 4-byte buffer. -/
def hdrC10 : NDSHeader :=
  { zeroHeader with arm9_offset := 1, arm9_size := 2, arm7_offset := 9, arm7_size := 3 }

/-- Fixture: a 4-byte content buffer. -/
def cw : List Nat := [10, 20, 30, 40]

/-- Fixture: the all-zero 512-byte bitmap. -/
def zb512 : List Nat := List.replicate 512 0

/-- Fixture: the all-zero 16-entry palette. -/
def palZ : NDSIconPalette := ⟨List.replicate 16 0⟩

/-- Fixture: bitmap whose first byte holds nibble index 1 (low) then 0. -/
def bmpC3 : List Nat := 1 :: List.replicate 511 0

/-- Fixture: palette whose entry 1 is 0b11111 (all five low bits set). -/
def palC3 : NDSIconPalette := ⟨0 :: 31 :: List.replicate 14 0⟩

/-- Fixture: extended icon block with all-zero frames and palettes and the
sequence 0x803C (vertical flip, duration 60), then the 0 terminator. -/
def demoDSI : DSIIcon :=
  { frames := List.replicate 8 ⟨List.replicate 512 0⟩,
    frame_palettes := List.replicate 8 ⟨List.replicate 16 0⟩,
    sequence := 0x803C :: 0 :: List.replicate 62 0 }

/-- Fixture: extended icon block whose sequence table starts with the 0
terminator. -/
def demoDSI6 : DSIIcon :=
  { frames := List.replicate 8 ⟨List.replicate 512 0⟩,
    frame_palettes := List.replicate 8 ⟨List.replicate 16 0⟩,
    sequence := List.replicate 64 0 }

/-- Fixture: the icon record decoded from 4672 zero bytes. -/
def iconZ : NDSIcon :=
  { version := 0, crc_1 := 0, crc_2 := 0, crc_3 := 0, crc_4 := 0,
    reserved := List.replicate 22 0, bitmap := List.replicate 512 0,
    palette := ⟨List.replicate 16 0⟩,
    title_jp := ⟨List.replicate 128 0⟩, title_en := ⟨List.replicate 128 0⟩,
    title_fr := ⟨List.replicate 128 0⟩, title_de := ⟨List.replicate 128 0⟩,
    title_it := ⟨List.replicate 128 0⟩, title_es := ⟨List.replicate 128 0⟩,
    title_zh := ⟨List.replicate 128 0⟩, title_kr := ⟨List.replicate 128 0⟩,
    zerofilled := List.replicate 2048 0, dsi_icon := none }

theorem bindD_ok {α β : Type} {x : DResult α} {f : α → Nat → DResult β} {b : β × Nat}
    (h : bindD x f = .ok b) : ∃ a p, x = .ok (a, p) ∧ f a p = .ok b := by
  cases x with
  | error e => simp [bindD] at h
  | ok ap => exact ⟨ap.1, ap.2, rfl, h⟩

theorem bindD_apply {α β : Type} (a : α) (p : Nat) (f : α → Nat → DResult β) :
    bindD (.ok (a, p)) f = f a p := rfl

theorem readBytes_ok {buf : List Nat} {pos n : Nat} {a : List Nat} {p : Nat}
    (h : readBytes buf pos n = .ok (a, p)) : p = pos + n ∧ pos + n ≤ buf.length := by
  unfold readBytes at h
  split at h
  · exact ⟨(by cases h; rfl), by assumption⟩
  · cases h

theorem readU8_ok {buf : List Nat} {pos : Nat} {a p : Nat}
    (h : readU8 buf pos = .ok (a, p)) : p = pos + 1 ∧ pos + 1 ≤ buf.length := by
  obtain ⟨bs, q, h1, h2⟩ := bindD_ok h
  obtain ⟨rfl, hle⟩ := readBytes_ok h1
  cases h2
  exact ⟨rfl, hle⟩

theorem readU16_ok {buf : List Nat} {pos : Nat} {a p : Nat}
    (h : readU16 buf pos = .ok (a, p)) : p = pos + 2 ∧ pos + 2 ≤ buf.length := by
  obtain ⟨bs, q, h1, h2⟩ := bindD_ok h
  obtain ⟨rfl, hle⟩ := readBytes_ok h1
  cases h2
  exact ⟨rfl, hle⟩

theorem readU32_ok {buf : List Nat} {pos : Nat} {a p : Nat}
    (h : readU32 buf pos = .ok (a, p)) : p = pos + 4 ∧ pos + 4 ≤ buf.length := by
  obtain ⟨bs, q, h1, h2⟩ := bindD_ok h
  obtain ⟨rfl, hle⟩ := readBytes_ok h1
  cases h2
  exact ⟨rfl, hle⟩

theorem readU64_ok {buf : List Nat} {pos : Nat} {a p : Nat}
    (h : readU64 buf pos = .ok (a, p)) : p = pos + 8 ∧ pos + 8 ≤ buf.length := by
  obtain ⟨bs, q, h1, h2⟩ := bindD_ok h
  obtain ⟨rfl, hle⟩ := readBytes_ok h1
  cases h2
  exact ⟨rfl, hle⟩

theorem readU16s_ok {buf : List Nat} {pos n : Nat} {a : List Nat} {p : Nat}
    (h : readU16s buf pos n = .ok (a, p)) : p = pos + 2 * n ∧ pos + 2 * n ≤ buf.length := by
  obtain ⟨bs, q, h1, h2⟩ := bindD_ok h
  obtain ⟨rfl, hle⟩ := readBytes_ok h1
  cases h2
  exact ⟨rfl, hle⟩

/-- A successful header decode consumes exactly the 384 fixed bytes, so the
buffer must hold at least that many. -/
theorem decodeNDSHeader_ok_length {buf : List Nat} {h : NDSHeader} {p : Nat}
    (hd : decodeNDSHeader buf = .ok (h, p)) : p = 384 ∧ 384 ≤ buf.length := by
  unfold decodeNDSHeader at hd
  obtain ⟨_, _, h1, hd⟩ := bindD_ok hd; obtain ⟨rfl, -⟩ := readBytes_ok h1
  obtain ⟨_, _, h1, hd⟩ := bindD_ok hd; obtain ⟨rfl, -⟩ := readBytes_ok h1
  obtain ⟨_, _, h1, hd⟩ := bindD_ok hd; obtain ⟨rfl, -⟩ := readU16_ok h1
  obtain ⟨_, _, h1, hd⟩ := bindD_ok hd; obtain ⟨rfl, -⟩ := readU8_ok h1
  obtain ⟨_, _, h1, hd⟩ := bindD_ok hd; obtain ⟨rfl, -⟩ := readU8_ok h1
  obtain ⟨_, _, h1, hd⟩ := bindD_ok hd; obtain ⟨rfl, -⟩ := readU8_ok h1
  obtain ⟨_, _, h1, hd⟩ := bindD_ok hd; obtain ⟨rfl, -⟩ := readBytes_ok h1
  obtain ⟨_, _, h1, hd⟩ := bindD_ok hd; obtain ⟨rfl, -⟩ := readU16_ok h1
  obtain ⟨_, _, h1, hd⟩ := bindD_ok hd; obtain ⟨rfl, -⟩ := readU8_ok h1
  obtain ⟨_, _, h1, hd⟩ := bindD_ok hd; obtain ⟨rfl, -⟩ := readU8_ok h1
  obtain ⟨_, _, h1, hd⟩ := bindD_ok hd; obtain ⟨rfl, -⟩ := readU32_ok h1
  obtain ⟨_, _, h1, hd⟩ := bindD_ok hd; obtain ⟨rfl, -⟩ := readU32_ok h1
  obtain ⟨_, _, h1, hd⟩ := bindD_ok hd; obtain ⟨rfl, -⟩ := readU32_ok h1
  obtain ⟨_, _, h1, hd⟩ := bindD_ok hd; obtain ⟨rfl, -⟩ := readU32_ok h1
  obtain ⟨_, _, h1, hd⟩ := bindD_ok hd; obtain ⟨rfl, -⟩ := readU32_ok h1
  obtain ⟨_, _, h1, hd⟩ := bindD_ok hd; obtain ⟨rfl, -⟩ := readU32_ok h1
  obtain ⟨_, _, h1, hd⟩ := bindD_ok hd; obtain ⟨rfl, -⟩ := readU32_ok h1
  obtain ⟨_, _, h1, hd⟩ := bindD_ok hd; obtain ⟨rfl, -⟩ := readU32_ok h1
  obtain ⟨_, _, h1, hd⟩ := bindD_ok hd; obtain ⟨rfl, -⟩ := readU32_ok h1
  obtain ⟨_, _, h1, hd⟩ := bindD_ok hd; obtain ⟨rfl, -⟩ := readU32_ok h1
  obtain ⟨_, _, h1, hd⟩ := bindD_ok hd; obtain ⟨rfl, -⟩ := readU32_ok h1
  obtain ⟨_, _, h1, hd⟩ := bindD_ok hd; obtain ⟨rfl, -⟩ := readU32_ok h1
  obtain ⟨_, _, h1, hd⟩ := bindD_ok hd; obtain ⟨rfl, -⟩ := readU32_ok h1
  obtain ⟨_, _, h1, hd⟩ := bindD_ok hd; obtain ⟨rfl, -⟩ := readU32_ok h1
  obtain ⟨_, _, h1, hd⟩ := bindD_ok hd; obtain ⟨rfl, -⟩ := readU32_ok h1
  obtain ⟨_, _, h1, hd⟩ := bindD_ok hd; obtain ⟨rfl, -⟩ := readU32_ok h1
  obtain ⟨_, _, h1, hd⟩ := bindD_ok hd; obtain ⟨rfl, -⟩ := readU32_ok h1
  obtain ⟨_, _, h1, hd⟩ := bindD_ok hd; obtain ⟨rfl, -⟩ := readU32_ok h1
  obtain ⟨_, _, h1, hd⟩ := bindD_ok hd; obtain ⟨rfl, -⟩ := readU32_ok h1
  obtain ⟨_, _, h1, hd⟩ := bindD_ok hd; obtain ⟨rfl, -⟩ := readU16_ok h1
  obtain ⟨_, _, h1, hd⟩ := bindD_ok hd; obtain ⟨rfl, -⟩ := readU16_ok h1
  obtain ⟨_, _, h1, hd⟩ := bindD_ok hd; obtain ⟨rfl, -⟩ := readU32_ok h1
  obtain ⟨_, _, h1, hd⟩ := bindD_ok hd; obtain ⟨rfl, -⟩ := readU32_ok h1
  obtain ⟨_, _, h1, hd⟩ := bindD_ok hd; obtain ⟨rfl, -⟩ := readU64_ok h1
  obtain ⟨_, _, h1, hd⟩ := bindD_ok hd; obtain ⟨rfl, -⟩ := readU32_ok h1
  obtain ⟨_, _, h1, hd⟩ := bindD_ok hd; obtain ⟨rfl, -⟩ := readU32_ok h1
  obtain ⟨_, _, h1, hd⟩ := bindD_ok hd; obtain ⟨rfl, -⟩ := readBytes_ok h1
  obtain ⟨_, _, h1, hd⟩ := bindD_ok hd; obtain ⟨rfl, -⟩ := readBytes_ok h1
  obtain ⟨_, _, h1, hd⟩ := bindD_ok hd; obtain ⟨rfl, -⟩ := readU16_ok h1
  obtain ⟨_, _, h1, hd⟩ := bindD_ok hd; obtain ⟨rfl, -⟩ := readU16_ok h1
  obtain ⟨_, _, h1, hd⟩ := bindD_ok hd; obtain ⟨rfl, hle⟩ := readBytes_ok h1
  cases hd
  exact ⟨rfl, by omega⟩

theorem leNum_replicate (n : Nat) : leNum (List.replicate n 0) = 0 := by
  induction n with
  | zero => rfl
  | succ k ih => simp [List.replicate_succ, leNum, ih]

theorem toU16s_replicate (k : Nat) : toU16s (List.replicate (2 * k) 0) = List.replicate k 0 := by
  induction k with
  | zero => rfl
  | succ m ih =>
    have h : 2 * (m + 1) = (2 * m) + 1 + 1 := by omega
    rw [h, List.replicate_succ, List.replicate_succ, toU16s, ih]
    simp [List.replicate_succ]

theorem readBytes_replicate (N pos n : Nat) (h : pos + n ≤ N) :
    readBytes (List.replicate N 0) pos n = .ok (List.replicate n 0, pos + n) := by
  unfold readBytes
  rw [if_pos (by simpa using h)]
  rw [List.drop_replicate, List.take_replicate]
  have hmin : min n (N - pos) = n := by omega
  rw [hmin]

theorem readU16_replicate2 (N pos q : Nat) (h : pos + 2 ≤ N) (hq : pos + 2 = q) :
    readU16 (List.replicate N 0) pos = .ok (0, q) := by
  unfold readU16
  rw [readBytes_replicate N pos 2 h]
  simp only [bindD, leNum_replicate, hq]

theorem readU16s_replicate2 (N pos n q : Nat) (h : pos + 2 * n ≤ N) (hq : pos + 2 * n = q) :
    readU16s (List.replicate N 0) pos n = .ok (List.replicate n 0, q) := by
  unfold readU16s
  rw [readBytes_replicate N pos (2 * n) h]
  simp only [bindD, toU16s_replicate, hq]

theorem readBytes_replicate2 (N pos n q : Nat) (h : pos + n ≤ N) (hq : pos + n = q) :
    readBytes (List.replicate N 0) pos n = .ok (List.replicate n 0, q) := by
  rw [readBytes_replicate N pos n h, hq]

set_option maxRecDepth 4000 in
/-- Decoding 4672 zero bytes yields the all-zero icon record, stopping at
cursor 4672 with no extended block (version 0 is below the threshold). -/
theorem decodeNDSIcon_zeroBuf :
    decodeNDSIcon (List.replicate 4672 0) = .ok (iconZ, 4672) := by
  unfold decodeNDSIcon
  rw [readU16_replicate2 4672 0 2 (by norm_num) (by norm_num)]; rw [bindD_apply]
  rw [readU16_replicate2 4672 2 4 (by norm_num) (by norm_num)]; rw [bindD_apply]
  rw [readU16_replicate2 4672 4 6 (by norm_num) (by norm_num)]; rw [bindD_apply]
  rw [readU16_replicate2 4672 6 8 (by norm_num) (by norm_num)]; rw [bindD_apply]
  rw [readU16_replicate2 4672 8 10 (by norm_num) (by norm_num)]; rw [bindD_apply]
  rw [readBytes_replicate2 4672 10 22 32 (by norm_num) (by norm_num)]; rw [bindD_apply]
  rw [readBytes_replicate2 4672 32 512 544 (by norm_num) (by norm_num)]; rw [bindD_apply]
  rw [readU16s_replicate2 4672 544 16 576 (by norm_num) (by norm_num)]; rw [bindD_apply]
  rw [readU16s_replicate2 4672 576 128 832 (by norm_num) (by norm_num)]; rw [bindD_apply]
  rw [readU16s_replicate2 4672 832 128 1088 (by norm_num) (by norm_num)]; rw [bindD_apply]
  rw [readU16s_replicate2 4672 1088 128 1344 (by norm_num) (by norm_num)]; rw [bindD_apply]
  rw [readU16s_replicate2 4672 1344 128 1600 (by norm_num) (by norm_num)]; rw [bindD_apply]
  rw [readU16s_replicate2 4672 1600 128 1856 (by norm_num) (by norm_num)]; rw [bindD_apply]
  rw [readU16s_replicate2 4672 1856 128 2112 (by norm_num) (by norm_num)]; rw [bindD_apply]
  rw [readU16s_replicate2 4672 2112 128 2368 (by norm_num) (by norm_num)]; rw [bindD_apply]
  rw [readU16s_replicate2 4672 2368 128 2624 (by norm_num) (by norm_num)]; rw [bindD_apply]
  rw [readBytes_replicate2 4672 2624 2048 4672 (by norm_num) (by norm_num)]; rw [bindD_apply]
  rw [if_neg (by norm_num)]
  rfl

set_option maxRecDepth 10000 in
/-- The blit-call stream is the 1024 frameEntry values in index order;
both sides reduce to the same list, so the nested tile loops emit exactly
one call per index k in 0..1024. -/
theorem dump_icon_frame_eq_map (bitmap : List Nat) (palette : NDSIconPalette)
    (anim : IconAnimation) :
    dump_icon_frame bitmap palette anim =
      (List.range 1024).map (frameEntry bitmap palette anim) := by
  rfl

theorem getD_take_drop (l : List Nat) (m i : Nat) (h : i < 64) :
    ((l.drop m).take 64).getD i 0 = l.getD (m + i) 0 := by
  simp [List.getD_eq_getElem?_getD, List.getElem?_take, h, List.getElem?_drop]

set_option maxRecDepth 10000 in
/-- Flip flags only mirror the destination coordinates of each blit call;
the order of the calls and their colors are unchanged. -/
theorem dump_icon_frame_flip (bitmap : List Nat) (palette : NDSIconPalette)
    (fv fh : Bool) (pal bm dur : Nat) :
    dump_icon_frame bitmap palette ⟨fv, fh, pal, bm, dur⟩ =
      (dump_icon_frame bitmap palette IconAnimation.default).map fun e =>
        (if fh then 31 - e.1 else e.1, if fv then 31 - e.2.1 else e.2.1, e.2.2) := by
  rw [dump_icon_frame_eq_map, dump_icon_frame_eq_map, List.map_map]
  rfl

/-- Every blit call of an unflipped frame targets a coordinate inside the
32x32 raster. -/
theorem mem_frame_coord_lt (b : List Nat) (p : NDSIconPalette) (e : Nat × Nat × RGBA)
    (he : e ∈ dump_icon_frame b p IconAnimation.default) : e.1 < 32 ∧ e.2.1 < 32 := by
  rw [dump_icon_frame_eq_map] at he
  obtain ⟨k, hk, rfl⟩ := List.mem_map.1 he
  rw [List.mem_range] at hk
  have h1 : k % 64 / 8 < 8 := by omega
  have h2 : k % 8 < 8 := by omega
  have h3 : k / 64 % 4 < 4 := by omega
  have h4 : k / 64 / 4 < 4 := by omega
  simp only [frameEntry, IconAnimation.default]
  constructor <;> simp <;> omega

/-- Replaying a vertically flipped frame reads the mirrored row of the
unflipped raster: the pixel written at (x, 31-y) is the unflipped pixel
at (x, y). -/
theorem applyWrites_flip_vert (b : List Nat) (p : NDSIconPalette) (pal bm dur : Nat)
    (x y : Nat) (hy : y < 32) :
    applyWrites (dump_icon_frame b p ⟨true, false, pal, bm, dur⟩) x (31 - y) =
      applyWrites (dump_icon_frame b p IconAnimation.default) x y := by
  have hstream : dump_icon_frame b p ⟨true, false, pal, bm, dur⟩ =
      (dump_icon_frame b p IconAnimation.default).map fun e => (e.1, 31 - e.2.1, e.2.2) := by
    rw [dump_icon_frame_flip]; simp
  rw [hstream]
  unfold applyWrites
  rw [List.foldl_map]
  apply List.foldl_ext
  intro acc e he
  have hlt := (mem_frame_coord_lt b p e he).2
  simp only []
  by_cases hx : e.1 = x
  · by_cases hyy : e.2.1 = y
    · rw [if_pos, if_pos] <;> constructor <;> omega
    · rw [if_neg, if_neg]
      · exact fun h => hyy (by omega)
      · exact fun h => hyy (by omega)
  · rw [if_neg, if_neg]
    · exact fun h => hx h.1
    · exact fun h => hx h.1

theorem nibbles_replicate (n : Nat) :
    nibbles (List.replicate n 0) = List.replicate (2 * n) 0 := by
  induction n with
  | zero => rfl
  | succ k ih =>
    have h : 2 * (k + 1) = (2 * k) + 1 + 1 := by omega
    rw [List.replicate_succ, h, List.replicate_succ, List.replicate_succ]
    simp only [nibbles, List.flatMap_cons] at ih ⊢
    rw [ih]
    rfl

theorem getD_replicate_zero (n i : Nat) : (List.replicate n (0 : Nat)).getD i 0 = 0 := by
  simp only [List.getD_eq_getElem?_getD, List.getElem?_replicate]
  split <;> rfl

/-- Every blit call of a frame rendered from the all-zero bitmap carries
the transparent color. -/
theorem frame_zb_transparent (p : NDSIconPalette) (a : IconAnimation)
    (e : Nat × Nat × RGBA) (he : e ∈ dump_icon_frame zb512 p a) : e.2.2 = (0, 0, 0, 0) := by
  rw [dump_icon_frame_eq_map] at he
  obtain ⟨k, hk, rfl⟩ := List.mem_map.1 he
  have hnib : nibbles zb512 = List.replicate (2 * 512) 0 := by
    rw [show zb512 = List.replicate 512 0 from rfl, nibbles_replicate]
  simp only [frameEntry, hnib, List.drop_replicate, List.take_replicate, getD_replicate_zero]
  simp [pixelColor]

theorem foldl_writes_transparent (x y : Nat) :
    ∀ (s : List (Nat × Nat × RGBA)), (∀ e ∈ s, e.2.2 = (0, 0, 0, 0)) →
      s.foldl (fun acc e => if e.1 = x ∧ e.2.1 = y then e.2.2 else acc) (0, 0, 0, 0) = (0, 0, 0, 0)
  | [], _ => rfl
  | e :: s, h => by
    rw [List.foldl_cons]
    have he : e.2.2 = (0, 0, 0, 0) := h e (by simp)
    have hstep : (if e.1 = x ∧ e.2.1 = y then e.2.2 else ((0, 0, 0, 0) : RGBA)) = (0, 0, 0, 0) := by
      split <;> simp [he]
    rw [hstep]
    exact foldl_writes_transparent x y s fun e2 he2 => h e2 (by simp [he2])

theorem land31_eq (c : Nat) : c &&& 31 = c % 32 := by
  have h : (31 : Nat) = 2 ^ 5 - 1 := by norm_num
  have h2 : (32 : Nat) = 2 ^ 5 := by norm_num
  rw [h, h2, Nat.and_pow_two_sub_one_eq_mod]

theorem shr5_land31 (c : Nat) : (c >>> 5) &&& 31 = c / 32 % 32 := by
  rw [land31_eq, Nat.shiftRight_eq_div_pow]

theorem shr10_land31 (c : Nat) : (c >>> 10) &&& 31 = c / 1024 % 32 := by
  rw [land31_eq, Nat.shiftRight_eq_div_pow]

theorem shr5_eq (c : Nat) : c >>> 5 = c / 32 := by
  rw [Nat.shiftRight_eq_div_pow]

theorem shr10_eq (c : Nat) : c >>> 10 = c / 1024 := by
  rw [Nat.shiftRight_eq_div_pow]

/-- C9: for every input buffer shorter than the fixed 384-byte header
size, header decoding fails with the typed UnexpectedEndOfData error; the
reader checks bounds before touching the buffer, so no out-of-bounds read
or panic can occur. -/
theorem C9_header_short_fails (buf : List Nat) (h : buf.length < 384) :
    failsEndOfData (decodeNDSHeader buf) := by
  cases hd : decodeNDSHeader buf with
  | error e =>
    cases e
    simp [failsEndOfData]
  | ok val =>
    exfalso
    obtain ⟨hh, pp⟩ := val
    exact absurd (decodeNDSHeader_ok_length hd).2 (by omega)

/-- C9 witness: the empty buffer is shorter than the header and decoding
it reports UnexpectedEndOfData. -/
theorem C9_header_short_fails_witness : failsEndOfData (decodeNDSHeader []) :=
  C9_header_short_fails [] (by decide)

/-- C5: whenever the icon record decodes successfully, the extended DSi
block is the explicit absence none exactly when version < 259, and is
present (a some value, never a defaulted record) exactly when
version is at least 259. -/
theorem C5_dsi_iff_version (buf : List Nat) (r : NDSIcon) (p : Nat)
    (hd : decodeNDSIcon buf = .ok (r, p)) :
    (r.dsi_icon = none ↔ r.version < 259) ∧ (r.dsi_icon ≠ none ↔ 259 ≤ r.version) := by
  unfold decodeNDSIcon at hd
  obtain ⟨version, _, h1, hd⟩ := bindD_ok hd
  obtain ⟨_, _, h2, hd⟩ := bindD_ok hd
  obtain ⟨_, _, h2, hd⟩ := bindD_ok hd
  obtain ⟨_, _, h2, hd⟩ := bindD_ok hd
  obtain ⟨_, _, h2, hd⟩ := bindD_ok hd
  obtain ⟨_, _, h2, hd⟩ := bindD_ok hd
  obtain ⟨_, _, h2, hd⟩ := bindD_ok hd
  obtain ⟨_, _, h2, hd⟩ := bindD_ok hd
  obtain ⟨_, _, h2, hd⟩ := bindD_ok hd
  obtain ⟨_, _, h2, hd⟩ := bindD_ok hd
  obtain ⟨_, _, h2, hd⟩ := bindD_ok hd
  obtain ⟨_, _, h2, hd⟩ := bindD_ok hd
  obtain ⟨_, _, h2, hd⟩ := bindD_ok hd
  obtain ⟨_, _, h2, hd⟩ := bindD_ok hd
  obtain ⟨_, _, h2, hd⟩ := bindD_ok hd
  obtain ⟨_, _, h2, hd⟩ := bindD_ok hd
  obtain ⟨_, _, h2, hd⟩ := bindD_ok hd
  split at hd
  · rename_i hv
    obtain ⟨dsi, p2, h3, hd⟩ := bindD_ok hd
    rw [Except.ok.injEq, Prod.mk.injEq] at hd
    obtain ⟨rfl, rfl⟩ := hd
    constructor <;> simp <;> omega
  · rename_i hv
    rw [Except.ok.injEq, Prod.mk.injEq] at hd
    obtain ⟨rfl, rfl⟩ := hd
    constructor <;> simp <;> omega

/-- C5 witness: a concrete 4672-byte buffer with version 0 decodes to a
record whose extended block is the explicit none. -/
theorem C5_dsi_iff_version_witness :
    (iconZ.dsi_icon = none ↔ iconZ.version < 259) ∧
    (iconZ.dsi_icon ≠ none ↔ 259 ≤ iconZ.version) :=
  C5_dsi_iff_version (List.replicate 4672 0) iconZ 4672 decodeNDSIcon_zeroBuf

/-- C10: executable extraction is total over descriptor values: for every
header and buffer, each payload is the bytes starting at the region
offset, at most size of them, clamped at the buffer end, and empty when
the offset is at or past the end. -/
theorem C10_dump_elf_clamped (h : NDSHeader) (c : List Nat) :
    ((dump_elf h c).1.length = min h.arm9_size (c.length - h.arm9_offset)) ∧
    (∀ i : Nat, (dump_elf h c).1.get? i =
      if i < h.arm9_size then c.get? (h.arm9_offset + i) else none) ∧
    (c.length ≤ h.arm9_offset → (dump_elf h c).1 = []) ∧
    ((dump_elf h c).2.length = min h.arm7_size (c.length - h.arm7_offset)) ∧
    (∀ i : Nat, (dump_elf h c).2.get? i =
      if i < h.arm7_size then c.get? (h.arm7_offset + i) else none) ∧
    (c.length ≤ h.arm7_offset → (dump_elf h c).2 = []) := by
  refine ⟨?_, ?_, ?_, ?_, ?_, ?_⟩
  · simp [dump_elf]
  · intro i
    simp only [dump_elf, List.get?_eq_getElem?, List.getElem?_take, List.getElem?_drop]
  · intro hle
    simp [dump_elf, List.drop_eq_nil_of_le hle]
  · simp [dump_elf]
  · intro i
    simp only [dump_elf, List.get?_eq_getElem?, List.getElem?_take, List.getElem?_drop]
  · intro hle
    simp [dump_elf, List.drop_eq_nil_of_le hle]

/-- C10 witness: on a 4-byte buffer, the arm9 payload (offset 1, size 2)
has the clamped length and the indexed bytes of the buffer, and the arm7
payload (offset 9, past the end) is empty. -/
theorem C10_dump_elf_clamped_witness :
    ((dump_elf hdrC10 cw).1.length = min hdrC10.arm9_size (cw.length - hdrC10.arm9_offset)) ∧
    ((dump_elf hdrC10 cw).1.get? 1 =
      if 1 < hdrC10.arm9_size then cw.get? (hdrC10.arm9_offset + 1) else none) ∧
    ((dump_elf hdrC10 cw).2 = []) :=
  ⟨(C10_dump_elf_clamped hdrC10 cw).1, (C10_dump_elf_clamped hdrC10 cw).2.1 1,
   (C10_dump_elf_clamped hdrC10 cw).2.2.2.2.2 (by decide)⟩

/-- C2 counterexample: with arm9_offset 2 and arm9_size 10 against a
4-byte buffer, the descriptor overruns the buffer, yet dump_elf does not
reject the input: it completes and produces the clamped payloads. -/
theorem C2_counterexample :
    hdrC2.arm9_offset + hdrC2.arm9_size = 12 ∧ cw.length = 4 ∧
    dump_elf hdrC2 cw = ([30, 40], []) := by
  refine ⟨rfl, rfl, rfl⟩

/-- C2 amended: extraction never rejects an out-of-range descriptor; when
offset + size reaches past the buffer the payload is silently truncated
to whatever bytes exist from the offset on (possibly none). -/
theorem C2_amended_truncates (h : NDSHeader) (c : List Nat) :
    (c.length ≤ h.arm9_offset + h.arm9_size → (dump_elf h c).1 = c.drop h.arm9_offset) ∧
    (c.length ≤ h.arm7_offset + h.arm7_size → (dump_elf h c).2 = c.drop h.arm7_offset) := by
  constructor
  · intro hle
    simp only [dump_elf]
    apply List.take_of_length_le
    simp
    omega
  · intro hle
    simp only [dump_elf]
    apply List.take_of_length_le
    simp
    omega

/-- C2 amended witness: both overrunning descriptors of the fixture are
truncated to the remaining bytes. -/
theorem C2_amended_truncates_witness :
    (dump_elf hdrC2 cw).1 = cw.drop hdrC2.arm9_offset ∧
    (dump_elf hdrC2 cw).2 = cw.drop hdrC2.arm7_offset :=
  ⟨(C2_amended_truncates hdrC2 cw).1 (by decide),
   (C2_amended_truncates hdrC2 cw).2 (by decide)⟩

/-- C1 counterexample: with icon_banner_offset 1 against an empty buffer
the offset is out of range, and dump_icon panics (slice split_at index out
of bounds) instead of reporting a typed InvalidOffset decode error; no
InvalidOffset error kind exists in the program. -/
theorem C1_counterexample : dump_icon hdrC1 [] = .panic := rfl

/-- C1 amended: when icon_banner_offset exceeds the buffer length,
dump_icon panics in split_at rather than returning a typed decode error
(no InvalidOffset error kind exists in the program); when the offset is
within the buffer, dump_icon never panics. -/
theorem C1_amended_oob_panics (h : NDSHeader) (c : List Nat) :
    (c.length < h.icon_banner_offset → dump_icon h c = .panic) ∧
    (h.icon_banner_offset ≤ c.length → dump_icon h c ≠ .panic) := by
  constructor
  · intro hlt
    unfold dump_icon splitAtChecked
    rw [if_neg (by omega)]
  · intro hle
    unfold dump_icon splitAtChecked
    rw [if_pos hle]
    cases hdec : decodeNDSIcon (c.drop h.icon_banner_offset) with
    | error e => simp [hdec]
    | ok pr => simp [hdec]

/-- C1 amended witness: an in-range offset does not panic, and an
out-of-range offset panics. -/
theorem C1_amended_oob_panics_witness :
    dump_icon hdrC1 cw ≠ .panic ∧ dump_icon hdrC1 [] = .panic :=
  ⟨(C1_amended_oob_panics hdrC1 cw).2 (by decide),
   (C1_amended_oob_panics hdrC1 []).1 (by decide)⟩

/-- C3 counterexample: palette entry 0b11111 at nonzero index 1 is emitted
as RGBA (255,0,0,255): the five low bits feed the red channel, not the
blue channel the claim states, so the emitted color differs from the
claimed expansion (0,0,255,255). -/
theorem C3_counterexample :
    (dump_icon_frame bmpC3 palC3 IconAnimation.default).get? 0 =
      some (0, 0, (255, 0, 0, 255)) ∧
    specClaimRGBA (palC3.colors.getD 1 0) = (0, 0, 255, 255) ∧
    (dump_icon_frame bmpC3 palC3 IconAnimation.default).get? 0 ≠
      some (0, 0, specClaimRGBA (palC3.colors.getD 1 0)) := by
  have hL : (dump_icon_frame bmpC3 palC3 IconAnimation.default).get? 0 =
      some (0, 0, (255, 0, 0, 255)) := rfl
  have hS : specClaimRGBA (palC3.colors.getD 1 0) = (0, 0, 255, 255) := by decide
  refine ⟨hL, hS, ?_⟩
  rw [hL, hS]
  simp

/-- C3 amended: the emitted color of a nonzero index unpacks the 16-bit
palette entry with red in bits 0-4, green in bits 5-9 and blue in bits
10-14 (the claim had red and blue swapped), each channel widened by conv,
and conv agrees with the exact rounding round(channel / 31 * 255) on the
whole 5-bit domain. -/
theorem C3_amended_channel_order :
    (∀ me p, me ≠ 0 →
      pixelColor me p =
        (conv (p.colors.getD me 0 % 32), conv (p.colors.getD me 0 / 32 % 32),
         conv (p.colors.getD me 0 / 1024 % 32), 255)) ∧
    (∀ v, v < 32 → (conv v : ℤ) = specConv v) := by
  constructor
  · intro me p hme
    simp [pixelColor, hme, land31_eq, shr5_eq, shr10_eq]
  · intro v hv
    interval_cases v <;> norm_num [specConv, conv, round_eq]

/-- C3 amended witness: the fixture palette entry 31 at index 1 lands in
the red channel, and conv 5 matches the exact rounding. -/
theorem C3_amended_channel_order_witness :
    pixelColor 1 palC3 =
      (conv (palC3.colors.getD 1 0 % 32), conv (palC3.colors.getD 1 0 / 32 % 32),
       conv (palC3.colors.getD 1 0 / 1024 % 32), 255) ∧
    (conv 5 : ℤ) = specConv 5 :=
  ⟨C3_amended_channel_order.1 1 palC3 (by decide),
   C3_amended_channel_order.2 5 (by decide)⟩

/-- C4 counterexample: the emitted write stream is not the raster-order
reference stream: already at index 1 the code blits destination (0,1)
(column-major inside the tile) while entry 1 of the reference stream
targets (1,0). -/
theorem C4_counterexample :
    dump_icon_frame zb512 palZ IconAnimation.default ≠ specReferenceStream zb512 palZ ∧
    (dump_icon_frame zb512 palZ IconAnimation.default).get? 1 = some (0, 1, (0, 0, 0, 0)) ∧
    (specReferenceStream zb512 palZ).get? 1 = some (1, 0, (0, 0, 0, 0)) := by
  have hL : (dump_icon_frame zb512 palZ IconAnimation.default).get? 1 =
      some (0, 1, (0, 0, 0, 0)) := rfl
  have hR : (specReferenceStream zb512 palZ).get? 1 = some (1, 0, (0, 0, 0, 0)) := rfl
  refine ⟨?_, hL, hR⟩
  intro h
  rw [h, hR] at hL
  simp at hL

/-- C4 amended: reconstruction is total and emits exactly 1024 writes;
each byte contributes its low nibble first and its high nibble second;
tiles are consumed row-major; but within a tile the calls are issued
column-major (x outer, y inner), write number 64*t + 8*x + y targeting
in-tile destination (x, y) with the color of tile nibble y*8 + x, so the
nibble stream still fills the raster positions of each tile in raster order
while the emission order is its transpose. -/
theorem C4_amended_stream_order (b : List Nat) (p : NDSIconPalette) :
    (dump_icon_frame b p IconAnimation.default).length = 1024 ∧
    (∀ i, i < b.length →
      (nibbles b).get? (2 * i) = some (b.getD i 0 &&& 15) ∧
      (nibbles b).get? (2 * i + 1) = some (b.getD i 0 >>> 4)) ∧
    (∀ t x y, t < 16 → x < 8 → y < 8 →
      (dump_icon_frame b p IconAnimation.default).get? (64 * t + 8 * x + y) =
        some (x + t % 4 * 8, y + t / 4 * 8,
          pixelColor ((nibbles b).getD (64 * t + (y * 8 + x)) 0) p)) := by
  refine ⟨?_, ?_, ?_⟩
  · rw [dump_icon_frame_eq_map]
    simp
  · intro i hi
    induction b generalizing i with
    | nil => simp at hi
    | cons a l ih =>
      cases i with
      | zero => constructor <;> rfl
      | succ j =>
        have hj : j < l.length := by simpa using hi
        have := ih j hj
        have h2 : 2 * (j + 1) = 2 * j + 1 + 1 := by omega
        simp only [nibbles, List.flatMap_cons] at this ⊢
        rw [h2]
        simpa using this
  · intro t x y ht hx hy
    have hk : 64 * t + 8 * x + y < 1024 := by omega
    rw [dump_icon_frame_eq_map, List.get?_eq_getElem?]
    simp only [List.getElem?_map, List.getElem?_range, hk, if_pos]
    have h1 : (64 * t + 8 * x + y) / 64 = t := by omega
    have h2 : (64 * t + 8 * x + y) % 64 / 8 = x := by omega
    have h3 : (64 * t + 8 * x + y) % 8 = y := by omega
    have h4 : t / 4 * 4 + t % 4 = t := by omega
    simp only [Option.map_some']
    simp only [frameEntry, h1, h2, h3, h4, IconAnimation.default]
    rw [getD_take_drop _ _ _ (by omega)]
    simp

set_option maxRecDepth 4000 in
/-- C4 amended witness: on the all-zero fixture the stream has 1024
writes, byte 3 contributes its nibbles low then high, and write
64*5 + 8*2 + 3 matches the stated destination and nibble. -/
theorem C4_amended_stream_order_witness :
    (dump_icon_frame zb512 palZ IconAnimation.default).length = 1024 ∧
    ((nibbles zb512).get? (2 * 3) = some (zb512.getD 3 0 &&& 15) ∧
      (nibbles zb512).get? (2 * 3 + 1) = some (zb512.getD 3 0 >>> 4)) ∧
    (dump_icon_frame zb512 palZ IconAnimation.default).get? (64 * 5 + 8 * 2 + 3) =
      some (2 + 5 % 4 * 8, 3 + 5 / 4 * 8,
        pixelColor ((nibbles zb512).getD (64 * 5 + (3 * 8 + 2)) 0) palZ) :=
  ⟨(C4_amended_stream_order zb512 palZ).1,
   (C4_amended_stream_order zb512 palZ).2.1 3 (by decide),
   (C4_amended_stream_order zb512 palZ).2.2 5 2 3 (by decide) (by decide) (by decide)⟩

/-- C6: the frame loop equals mapping the frame renderer over the longest
zero-free prefix of the sequence table: a raw entry 0 ends the sequence at
once, whatever remains in the table; in particular a table starting with 0
yields no frames. -/
theorem C6_zero_terminates :
    (∀ dsi l, animFramesLoop dsi l =
      (l.takeWhile fun s => !(s == 0)).map (frameOf dsi)) ∧
    (∀ dsi rest, dsi.sequence = 0 :: rest → animFrames dsi = []) := by
  constructor
  · intro dsi l
    induction l with
    | nil => rfl
    | cons s rest ih =>
      by_cases hs : s = 0
      · subst hs
        simp [animFramesLoop, List.takeWhile_cons]
      · simp [animFramesLoop, List.takeWhile_cons, hs, ih]
  · intro dsi rest hseq
    unfold animFrames
    rw [hseq]
    simp [animFramesLoop]

/-- C6 witness: the loop agrees with the takeWhile map on a singleton
table, and the fixture block whose table starts with 0 emits no frames. -/
theorem C6_zero_terminates_witness :
    animFramesLoop demoDSI6 [3] =
      (([3] : List Nat).takeWhile fun s => !(s == 0)).map (frameOf demoDSI6) ∧
    animFrames demoDSI6 = [] :=
  ⟨C6_zero_terminates.1 demoDSI6 [3],
   C6_zero_terminates.2 demoDSI6 (List.replicate 63 0) rfl⟩

/-- C7: for the sequence entry 0b1000000000111100 followed by the zero
terminator, the interpreter emits exactly one frame whose duration is 60
ticks, and the pixel of the flipped frame at (x, 31-y) equals the pixel of
the unflipped reconstruction at (x, y); in general a flip flag only mirrors the
destination coordinate of each write, independently per axis, leaving the
order and colors of the write stream unchanged. -/
theorem C7_flip_frame (dsi : DSIIcon) (rest : List Nat)
    (hseq : dsi.sequence = 0x803C :: 0 :: rest) :
    (animFrames dsi).length = 1 ∧
    (animFrames dsi).head?.map Prod.snd = some 60 ∧
    (∀ x y, x < 32 → y < 32 →
      applyWrites ((animFrames dsi).headD ([], 0)).1 x (31 - y) =
        applyWrites (dump_icon_frame (dsi.frames.getD 0 ⟨[]⟩).data
          (dsi.frame_palettes.getD 0 ⟨[]⟩) IconAnimation.default) x y) ∧
    (∀ b p fv fh pal bm dur,
      dump_icon_frame b p ⟨fv, fh, pal, bm, dur⟩ =
        (dump_icon_frame b p IconAnimation.default).map fun e =>
          (if fh then 31 - e.1 else e.1, if fv then 31 - e.2.1 else e.2.1, e.2.2)) := by
  have hframes : animFrames dsi = [frameOf dsi 0x803C] := by
    unfold animFrames
    rw [hseq]
    norm_num [animFramesLoop]
  refine ⟨?_, ?_, ?_, ?_⟩
  · rw [hframes]
    rfl
  · rw [hframes]
    rfl
  · intro x y hx hy
    rw [hframes]
    have hstr : (([frameOf dsi 0x803C].headD ([], 0)).1 : List (Nat × Nat × RGBA)) =
        dump_icon_frame (dsi.frames.getD 0 ⟨[]⟩).data (dsi.frame_palettes.getD 0 ⟨[]⟩)
          ⟨true, false, 0, 0, 60⟩ := rfl
    rw [hstr]
    exact applyWrites_flip_vert _ _ 0 0 60 x y hy
  · intro b p fv fh pal bm dur
    exact dump_icon_frame_flip b p fv fh pal bm dur

/-- C7 witness: on the concrete fixture block the interpreter emits one
frame of duration 60, the flipped pixel relation holds at (3, 31-5), and
the mirror description holds for a concrete doubly flipped frame. -/
theorem C7_flip_frame_witness :
    (animFrames demoDSI).length = 1 ∧
    (animFrames demoDSI).head?.map Prod.snd = some 60 ∧
    applyWrites ((animFrames demoDSI).headD ([], 0)).1 3 (31 - 5) =
      applyWrites (dump_icon_frame (demoDSI.frames.getD 0 ⟨[]⟩).data
        (demoDSI.frame_palettes.getD 0 ⟨[]⟩) IconAnimation.default) 3 5 ∧
    dump_icon_frame zb512 palZ ⟨true, true, 0, 0, 0⟩ =
      (dump_icon_frame zb512 palZ IconAnimation.default).map fun e =>
        (if true then 31 - e.1 else e.1, if true then 31 - e.2.1 else e.2.1, e.2.2) :=
  ⟨(C7_flip_frame demoDSI (List.replicate 62 0) rfl).1,
   (C7_flip_frame demoDSI (List.replicate 62 0) rfl).2.1,
   (C7_flip_frame demoDSI (List.replicate 62 0) rfl).2.2.1 3 5 (by decide) (by decide),
   (C7_flip_frame demoDSI (List.replicate 62 0) rfl).2.2.2 zb512 palZ true true 0 0 0⟩

/-- C8: a decoded index of 0 is always written as the fully transparent
RGBA (0,0,0,0) whatever the palette holds; any nonzero index is written
with alpha 255 from its palette entry; the palette value 0 at a nonzero
index yields opaque black (0,0,0,255); and replaying a frame rendered
from the all-zero bitmap leaves every pixel of the 32x32 raster fully
transparent. -/
theorem C8_transparency :
    (∀ p, pixelColor 0 p = (0, 0, 0, 0)) ∧
    (∀ me p, me ≠ 0 → (pixelColor me p).2.2.2 = 255) ∧
    (∀ me p, me ≠ 0 → p.colors.getD me 0 = 0 → pixelColor me p = (0, 0, 0, 255)) ∧
    (∀ p a x y, applyWrites (dump_icon_frame zb512 p a) x y = (0, 0, 0, 0)) := by
  refine ⟨?_, ?_, ?_, ?_⟩
  · intro p
    rfl
  · intro me p hme
    simp [pixelColor, hme]
  · intro me p hme hc
    simp only [List.getD_eq_getElem?_getD] at hc
    simp [pixelColor, hme, hc, conv]
  · intro p a x y
    exact foldl_writes_transparent x y _ (frame_zb_transparent p a)

/-- C8 witness: concrete instances of the four transparency facts on the
all-zero fixtures. -/
theorem C8_transparency_witness :
    pixelColor 0 palZ = (0, 0, 0, 0) ∧
    (pixelColor 3 palZ).2.2.2 = 255 ∧
    pixelColor 3 palZ = (0, 0, 0, 255) ∧
    applyWrites (dump_icon_frame zb512 palZ IconAnimation.default) 7 9 = (0, 0, 0, 0) :=
  ⟨C8_transparency.1 palZ, C8_transparency.2.1 3 palZ (by decide),
   C8_transparency.2.2.1 3 palZ (by decide) (by decide),
   C8_transparency.2.2.2 palZ IconAnimation.default 7 9⟩
